import Mathlib

/-!
Verification of `beacn-link-linux`, a thin glue layer that shells out to
`pactl` to enumerate, create, route and clean up PulseAudio virtual devices.

Strings are embedded as `List Char`.  Every external-process invocation is
modelled by an environment `Env : Cmd → CmdResult` mapping the spawned
command line (program name followed by its arguments) to its outcome:
either a spawn failure (`Err` from `Command::output()`) or an exit status
together with the produced stdout.  Stdout decoding is modelled by
`Utf8Result`: `valid s` means `String::from_utf8` succeeds with `s` (and
`from_utf8_lossy` returns the same `s`); `invalid lossy` means
`String::from_utf8` fails while `from_utf8_lossy` returns `lossy`.

Each modelled operation returns its result together with the trace of
commands it spawned, in order.
-/

namespace BeacnLink

abbrev Str := List Char

abbrev Cmd := List Str

/-- Is the first list a prefix of the second?  (Rust `str::starts_with`.) -/
def isPrefixList : Str → Str → Bool
  | [], _ => true
  | _ :: _, [] => false
  | a :: as, b :: bs => a = b && isPrefixList as bs

/-- Does `pat` occur as a contiguous substring of `s`?  (Rust `str::contains`.) -/
def containsSub : Str → Str → Bool
  | s, pat =>
    isPrefixList pat s ||
      match s with
      | [] => false
      | _ :: rest => containsSub rest pat

/-- Split a character list at every occurrence of `sep`
    (Rust `str::split(sep)`; always returns at least one field). -/
def splitOnChar (sep : Char) : Str → List Str
  | [] => [[]]
  | c :: rest =>
    let r := splitOnChar sep rest
    if c = sep then [] :: r
    else (c :: r.headD []) :: r.tail

/-- Remove one trailing carriage return, if present. -/
def stripCr (l : Str) : Str :=
  if l.getLast? = some '\r' then l.dropLast else l

/-- Helper for `rustLines`: every segment except the last was terminated by
    a newline, so its trailing `\r` is stripped; a final empty segment
    (the string ended with a newline) is dropped. -/
def rustLinesAux : List Str → List Str
  | [] => []
  | [l] => if l = [] then [] else [l]
  | l :: rest => stripCr l :: rustLinesAux rest

/-- Rust `str::lines()`: split on `'\n'`, treating `"\r\n"` as a line
    terminator too, with no trailing empty line. -/
def rustLines (s : Str) : List Str :=
  rustLinesAux (splitOnChar '\n' s)

/-- Outcome of decoding a spawned command stdout bytes. -/
inductive Utf8Result where
  | valid (s : Str)
  | invalid (lossy : Str)
deriving Repr, DecidableEq

/-- Outcome of `Command::output()`: spawn failure, or an exit status
    (`success`) together with the stdout decoding outcome. -/
inductive CmdResult where
  | spawnErr
  | output (success : Bool) (stdout : Utf8Result)
deriving Repr, DecidableEq

/-- The external world: what each spawned command line returns. -/
abbrev Env := Cmd → CmdResult

/-- `String::from_utf8_lossy` of the stdout bytes. -/
def lossyOf : Utf8Result → Str
  | .valid s => s
  | .invalid lossy => lossy

/-- `output.status.success()` after a `match` on the spawn result:
    `Ok(out) => out.status.success(), Err(_) => false`. -/
def cmdSuccess : CmdResult → Bool
  | .spawnErr => false
  | .output success _ => success

/-- The record type produced by device enumeration
    (`beacn_audio.rs`, struct `AudioDevice`). -/
structure AudioDevice where
  name : Str
  id : Str
  description : Str
  is_output : Bool
deriving Repr, DecidableEq

/-- One iteration of the parsing loop in `get_audio_devices`:
    split the line on `'\t'`; if there are at least two fields, build a
    record from fields 0 (id), 1 (name) and 2 (description, defaulting to
    the empty string via `parts.get(2).unwrap_or(&"")`); otherwise skip. -/
def parseDeviceLine (isOut : Bool) (line : Str) : Option AudioDevice :=
  let parts := splitOnChar '\t' line
  if 2 ≤ parts.length then
    some { name := parts.getD 1 [], id := parts.getD 0 [],
           description := parts.getD 2 [], is_output := isOut }
  else none

/-- The whole parsing loop of `get_audio_devices` over one listing output. -/
def parseListing (isOut : Bool) (out : Str) : List AudioDevice :=
  (rustLines out).filterMap (parseDeviceLine isOut)

/-- The listing command: `pactl list short <what>`. -/
def listShortCmd (what : Str) : Cmd :=
  ["pactl".data, "list".data, "short".data, what]

/-- What one `if let Ok(output) = ... .output()` block of `get_audio_devices`
    contributes: nothing on spawn failure, nothing when `String::from_utf8`
    fails, the parsed records otherwise.  The exit status is not inspected. -/
def devicesFromOutput (res : CmdResult) (isOut : Bool) : List AudioDevice :=
  match res with
  | .spawnErr => []
  | .output _ (.invalid _) => []
  | .output _ (.valid s) => parseListing isOut s

/-- Model of `BeacnLink::get_audio_devices`: list sinks (marked `is_output = true`),
    then sources (marked `is_output = false`), concatenated in that order. -/
def get_audio_devices (env : Env) : List AudioDevice :=
  devicesFromOutput (env (listShortCmd ("sinks".data))) true
    ++ devicesFromOutput (env (listShortCmd ("sources".data))) false

/-- The command built by `create_virtual_output`:
    `pactl load-module module-null-sink sink_name=<name>
     sink_properties=device.description="<name>"`. -/
def loadNullSinkCmd (name : Str) : Cmd :=
  ["pactl".data, "load-module".data, "module-null-sink".data,
   "sink_name=".data ++ name,
   "sink_properties=device.description=\"".data ++ name ++ "\"".data]

/-- Model of `BeacnLink::create_virtual_output`.  The `pulse_context` slot stored by
    `BeacnLink::new` (`None` until `initialize` succeeds) is modelled as
    `Option Unit`, the `Context` value itself never being used.  When the
    slot is empty the function returns `false` without spawning anything. -/
def create_virtual_output (ctx : Option Unit) (env : Env) (name : Str) :
    Bool × List Cmd :=
  match ctx with
  | some _ =>
    let cmd := loadNullSinkCmd name
    (cmdSuccess (env cmd), [cmd])
  | none => (false, [])

/-- The command built by `route_audio`:
    `pactl load-module module-loopback source=<source> sink=<destination>`. -/
def loopbackCmd (source destination : Str) : Cmd :=
  ["pactl".data, "load-module".data, "module-loopback".data,
   "source=".data ++ source,
   "sink=".data ++ destination]

/-- Model of `BeacnLink::route_audio`: same context gating as
    `create_virtual_output`, loading `module-loopback` instead. -/
def route_audio (ctx : Option Unit) (env : Env) (source destination : Str) :
    Bool × List Cmd :=
  match ctx with
  | some _ =>
    let cmd := loopbackCmd source destination
    (cmdSuccess (env cmd), [cmd])
  | none => (false, [])

/-- The four fixed output names of `create_link_outputs`. -/
def output_names : List Str :=
  ["BEACN_Link_Out".data, "BEACN_Link_2_Out".data,
   "BEACN_Link_3_Out".data, "BEACN_Link_4_Out".data]

/-- The loop of `create_link_outputs`: create each name in order, stopping
    with `false` at the first failure. -/
def create_link_outputs_go (ctx : Option Unit) (env : Env) :
    List Str → Bool × List Cmd
  | [] => (true, [])
  | n :: rest =>
    let r := create_virtual_output ctx env n
    if r.1 then
      let r2 := create_link_outputs_go ctx env rest
      (r2.1, r.2 ++ r2.2)
    else (false, r.2)

/-- Model of `BeacnLink::create_link_outputs`. -/
def create_link_outputs (ctx : Option Unit) (env : Env) : Bool × List Cmd :=
  create_link_outputs_go ctx env output_names

/-- The module listing command: `pactl list short modules`. -/
def listModulesCmd : Cmd :=
  ["pactl".data, "list".data, "short".data, "modules".data]

/-- The unload command: `pactl unload-module <id>`. -/
def unloadCmd (moduleId : Str) : Cmd :=
  ["pactl".data, "unload-module".data, moduleId]

/-- One iteration of the cleanup loop (`cleanup.rs`): if the line contains
    `"beacn_link_"`, unload its first tab-separated field (`split('\t')
    .next()`); the result of each unload is discarded (`let _ = ...`). -/
def cleanupLineUnload (line : Str) : Option Cmd :=
  if containsSub line ("beacn_link_".data) then
    match (splitOnChar '\t' line).head? with
    | some moduleId => some (unloadCmd moduleId)
    | none => none
  else none

/-- What `cleanup_virtual_devices` does overall: `panicked` models the
    `.expect("Failed to execute pactl")` on the module-listing spawn. -/
inductive CleanupOutcome where
  | panicked
  | returned (b : Bool)
deriving Repr, DecidableEq

/-- Model of `cleanup_virtual_devices` (`cleanup.rs`): list modules — panicking via
    `expect` if the spawn fails — decode stdout with `from_utf8_lossy`,
    and unload every line containing `"beacn_link_"` by its first
    tab-separated field, ignoring the outcome of each unload; then return
    `true`. -/
def cleanup_virtual_devices (env : Env) : CleanupOutcome × List Cmd :=
  match env listModulesCmd with
  | .spawnErr => (.panicked, [listModulesCmd])
  | .output _ st =>
    let modules := lossyOf st
    let unloads := (rustLines modules).filterMap cleanupLineUnload
    (.returned true, listModulesCmd :: unloads)

/-- "No special characters": alphanumeric or underscore throughout. -/
def noSpecialChars (name : Str) : Bool :=
  name.all (fun c => c.isAlphanum || c = '_')

/-- Did the load-module command for `name` exit with status zero under
    `env`? -/
def cmdOk (env : Env) (name : Str) : Bool :=
  cmdSuccess (env (loadNullSinkCmd name))

/-- A listing line is well formed when it has at least two
    tab-separated fields. -/
def wellFormedLine (line : Str) : Bool :=
  2 ≤ (splitOnChar '\t' line).length

/-- A concrete environment serving fixed listing outputs for the sinks,
    sources and modules listing commands, and failing to spawn anything
    else. -/
def fixtureEnv (sinks sources modules : Str) : Env := fun c =>
  if c = listShortCmd ("sinks".data) then .output true (.valid sinks)
  else if c = listShortCmd ("sources".data) then .output true (.valid sources)
  else if c = listModulesCmd then .output true (.valid modules)
  else .spawnErr

/-- Fixture: two well-formed sink lines and one malformed line. -/
def sinksFixture : Str :=
  ("0\tsink_a\tDesc A\n1\tsink_b\nmalformed\n").data

/-- Fixture: one well-formed source line. -/
def sourcesFixture : Str :=
  ("4\tsrc_a\tMic\n").data

/-- Fixture: a module listing mixing lines with and without the
    `beacn_link_` text. -/
def modulesFixture : Str :=
  ("7\tmodule-null-sink\tsink_name=beacn_link_out\n8\tmodule-alsa-card\n9\tmodule-null-sink\tsink_name=beacn_link_2\n").data

/-- Splitting never produces an empty list of fields. -/
theorem splitOnChar_ne_nil (sep : Char) (s : Str) : splitOnChar sep s ≠ [] := by
  cases s with
  | nil => simp [splitOnChar]
  | cons c rest =>
    simp only [splitOnChar]
    split <;> simp

/-- A parsed record carries the output flag of the listing it came from. -/
theorem parseDeviceLine_isOut (b : Bool) (line : Str) (d : AudioDevice)
    (h : parseDeviceLine b line = some d) : d.is_output = b := by
  simp only [parseDeviceLine] at h
  split at h
  · cases h
    rfl
  · cases h

/-- The parsing loop keeps exactly the well-formed lines. -/
theorem length_filterMap_parseDeviceLine (b : Bool) (l : List Str) :
    (l.filterMap (parseDeviceLine b)).length = (l.filter wellFormedLine).length := by
  induction l with
  | nil => rfl
  | cons a l ih =>
    by_cases h : 2 ≤ (splitOnChar '\t' a).length
    · simp [List.filterMap_cons, List.filter_cons, parseDeviceLine, wellFormedLine, h, ih]
    · simp [List.filterMap_cons, List.filter_cons, parseDeviceLine, wellFormedLine, h, ih]

/-- Dropping the malformed lines first does not change the parse result. -/
theorem filterMap_parseDeviceLine_filter (b : Bool) (l : List Str) :
    l.filterMap (parseDeviceLine b) =
      (l.filter wellFormedLine).filterMap (parseDeviceLine b) := by
  induction l with
  | nil => rfl
  | cons a l ih =>
    by_cases h : 2 ≤ (splitOnChar '\t' a).length
    · simp [List.filterMap_cons, List.filter_cons, parseDeviceLine, wellFormedLine, h, ih]
    · simp [List.filterMap_cons, List.filter_cons, parseDeviceLine, wellFormedLine, h, ih]

/-- Closed form of the cleanup loop body. -/
theorem cleanupLineUnload_eq (line : Str) :
    cleanupLineUnload line =
      if containsSub line ("beacn_link_".data)
      then some (unloadCmd ((splitOnChar '\t' line).headD []))
      else none := by
  simp only [cleanupLineUnload]
  cases h : containsSub line ("beacn_link_".data)
  · simp [h]
  · simp only [h, if_true]
    cases hs : splitOnChar '\t' line with
    | nil => exact absurd hs (splitOnChar_ne_nil _ _)
    | cons x xs => simp [hs]

/-- The cleanup loop unloads exactly the first field of each line that
    contains the `beacn_link_` text. -/
theorem filterMap_cleanupLineUnload (l : List Str) :
    l.filterMap cleanupLineUnload =
      (l.filter (fun line => containsSub line ("beacn_link_".data))).map
        (fun line => unloadCmd ((splitOnChar '\t' line).headD [])) := by
  induction l with
  | nil => rfl
  | cons a l ih =>
    cases h : containsSub a ("beacn_link_".data)
    · simp [List.filterMap_cons, List.filter_cons, cleanupLineUnload_eq, h, ih]
    · simp [List.filterMap_cons, List.filter_cons, cleanupLineUnload_eq, h, ih]

/-- Result and trace of the `create_link_outputs` loop on any name list:
    it succeeds when every creation succeeds, and it spawns the load
    commands for the names up to and including the first failing one. -/
theorem create_link_outputs_go_spec (env : Env) (names : List Str) :
    (create_link_outputs_go (some ()) env names).1 = names.all (cmdOk env)
  ∧ (create_link_outputs_go (some ()) env names).2 =
      (names.takeWhile (cmdOk env)
        ++ (names.dropWhile (cmdOk env)).take 1).map loadNullSinkCmd := by
  induction names with
  | nil => exact ⟨rfl, rfl⟩
  | cons n rest ih =>
    cases h : cmdOk env n
    · constructor
      · simp [create_link_outputs_go, create_virtual_output, cmdOk] at h ⊢
        simp [h]
      · simp [create_link_outputs_go, create_virtual_output,
              List.takeWhile_cons, List.dropWhile_cons, cmdOk] at h ⊢
        simp [h]
    · constructor
      · simp [create_link_outputs_go, create_virtual_output, cmdOk] at h ⊢
        simp [h, ih.1]
      · simp [create_link_outputs_go, create_virtual_output,
              List.takeWhile_cons, List.dropWhile_cons, cmdOk] at h ⊢
        simp [h, ih.2]

/-- `create_link_outputs` succeeds exactly when all four load commands
    exit with status zero. -/
theorem create_link_outputs_result (env : Env) :
    (create_link_outputs (some ()) env).1 =
      (cmdOk env ("BEACN_Link_Out".data) && cmdOk env ("BEACN_Link_2_Out".data)
        && cmdOk env ("BEACN_Link_3_Out".data) && cmdOk env ("BEACN_Link_4_Out".data)) := by
  have h := (create_link_outputs_go_spec env output_names).1
  unfold create_link_outputs
  rw [h]
  simp [output_names, List.all, Bool.and_assoc]

/-- C1: when the sinks listing decodes to `s` with N well-formed
    (at-least-two-tab-separated-field) lines and the sources listing
    decodes to `t` with M well-formed lines, `get_audio_devices` returns
    exactly N+M records, all sink records first then all source records,
    with `is_output = true` for every record parsed from the sinks listing
    and `is_output = false` for every record parsed from the sources
    listing. -/
theorem claim_C1 (env : Env) (bs bt : Bool) (s t : Str)
    (hs : env (listShortCmd ("sinks".data)) = CmdResult.output bs (Utf8Result.valid s))
    (ht : env (listShortCmd ("sources".data)) = CmdResult.output bt (Utf8Result.valid t)) :
    get_audio_devices env = parseListing true s ++ parseListing false t
  ∧ (get_audio_devices env).length =
      ((rustLines s).filter wellFormedLine).length
        + ((rustLines t).filter wellFormedLine).length
  ∧ (∀ d ∈ parseListing true s, d.is_output = true)
  ∧ (∀ d ∈ parseListing false t, d.is_output = false) := by
  have hdev : get_audio_devices env = parseListing true s ++ parseListing false t := by
    simp [get_audio_devices, hs, ht, devicesFromOutput]
  refine ⟨hdev, ?_, ?_, ?_⟩
  · rw [hdev, List.length_append]
    simp [parseListing, length_filterMap_parseDeviceLine]
  · intro d hd
    simp only [parseListing, List.mem_filterMap] at hd
    obtain ⟨a, _, ha⟩ := hd
    exact parseDeviceLine_isOut _ _ _ ha
  · intro d hd
    simp only [parseListing, List.mem_filterMap] at hd
    obtain ⟨a, _, ha⟩ := hd
    exact parseDeviceLine_isOut _ _ _ ha

/-- Witness for C1 on a fixture with two well-formed sink lines, one
    malformed sink line and one well-formed source line. -/
theorem claim_C1_witness :
    fixtureEnv sinksFixture sourcesFixture modulesFixture (listShortCmd ("sinks".data))
      = CmdResult.output true (Utf8Result.valid sinksFixture)
  ∧ (get_audio_devices (fixtureEnv sinksFixture sourcesFixture modulesFixture)).length =
      ((rustLines sinksFixture).filter wellFormedLine).length
        + ((rustLines sourcesFixture).filter wellFormedLine).length :=
  ⟨by decide,
   (claim_C1 (fixtureEnv sinksFixture sourcesFixture modulesFixture) true true
      sinksFixture sourcesFixture (by decide) (by decide)).2.1⟩

/-- C2 counterexample: the claim says `cleanup_virtual_devices` never
    panics when spawning the module-listing command fails, but the source
    calls `.expect("Failed to execute pactl")` on that spawn, so in an
    environment where every spawn fails the function panics. -/
theorem claim_C2_counterexample :
    (cleanup_virtual_devices (fun _ => CmdResult.spawnErr)).1 =
      CleanupOutcome.panicked := rfl

/-- C2 amended: enumeration, virtual-output creation, routing and
    link-output creation absorb spawn failures, non-zero exits and
    malformed output as ordinary failure results (false, or fewer/empty
    records); `cleanup_virtual_devices`, however, panics when spawning the
    module-listing command fails, and otherwise returns true. -/
theorem claim_C2_amended (env : Env) (name source destination : Str)
    (b isOut : Bool) (lossy : Str) :
    devicesFromOutput CmdResult.spawnErr isOut = []
  ∧ devicesFromOutput (CmdResult.output b (Utf8Result.invalid lossy)) isOut = []
  ∧ get_audio_devices env =
      devicesFromOutput (env (listShortCmd ("sinks".data))) true
        ++ devicesFromOutput (env (listShortCmd ("sources".data))) false
  ∧ (create_virtual_output (some ()) env name).1 =
      cmdSuccess (env (loadNullSinkCmd name))
  ∧ (route_audio (some ()) env source destination).1 =
      cmdSuccess (env (loopbackCmd source destination))
  ∧ cmdSuccess CmdResult.spawnErr = false
  ∧ (∀ st, cmdSuccess (CmdResult.output false st) = false)
  ∧ (create_link_outputs (some ()) env).1 =
      (cmdOk env ("BEACN_Link_Out".data) && cmdOk env ("BEACN_Link_2_Out".data)
        && cmdOk env ("BEACN_Link_3_Out".data) && cmdOk env ("BEACN_Link_4_Out".data))
  ∧ (cleanup_virtual_devices env).1 =
      (match env listModulesCmd with
       | CmdResult.spawnErr => CleanupOutcome.panicked
       | CmdResult.output _ _ => CleanupOutcome.returned true) := by
  refine ⟨rfl, rfl, rfl, rfl, rfl, rfl, fun st => rfl,
    create_link_outputs_result env, ?_⟩
  cases h : env listModulesCmd with
  | spawnErr => simp [cleanup_virtual_devices, h]
  | output succ st => simp [cleanup_virtual_devices, h]

/-- C3: whenever the module-listing spawn succeeds, `cleanup_virtual_devices`
    returns true, and it spawns, after the listing command, exactly one
    unload command per line containing `beacn_link_`, with the first
    tab-separated field of that line as module id, and nothing for any
    other line. -/
theorem claim_C3 (env : Env) (succ : Bool) (st : Utf8Result)
    (h : env listModulesCmd = CmdResult.output succ st) :
    (cleanup_virtual_devices env).1 = CleanupOutcome.returned true
  ∧ (cleanup_virtual_devices env).2 =
      listModulesCmd ::
        ((rustLines (lossyOf st)).filter
            (fun line => containsSub line ("beacn_link_".data))).map
          (fun line => unloadCmd ((splitOnChar '\t' line).headD [])) := by
  constructor
  · simp [cleanup_virtual_devices, h]
  · simp only [cleanup_virtual_devices, h]
    exact congrArg _ (filterMap_cleanupLineUnload _)

/-- Witness for C3 on a module listing mixing prefixed and unprefixed
    lines. -/
theorem claim_C3_witness :
    fixtureEnv sinksFixture sourcesFixture modulesFixture listModulesCmd
      = CmdResult.output true (Utf8Result.valid modulesFixture)
  ∧ (cleanup_virtual_devices
        (fixtureEnv sinksFixture sourcesFixture modulesFixture)).1 =
      CleanupOutcome.returned true :=
  ⟨by decide,
   (claim_C3 (fixtureEnv sinksFixture sourcesFixture modulesFixture) true
      (Utf8Result.valid modulesFixture) (by decide)).1⟩

/-- C4: `create_link_outputs` attempts the four fixed names in order,
    returns true exactly when all four load commands succeed, spawns the
    load commands up to and including the first failing one and none
    after it, and spawns only load commands (no unload/rollback). -/
theorem claim_C4 (env : Env) :
    (create_link_outputs (some ()) env).1 =
      (cmdOk env ("BEACN_Link_Out".data) && cmdOk env ("BEACN_Link_2_Out".data)
        && cmdOk env ("BEACN_Link_3_Out".data) && cmdOk env ("BEACN_Link_4_Out".data))
  ∧ (create_link_outputs (some ()) env).2 =
      (output_names.takeWhile (cmdOk env)
        ++ (output_names.dropWhile (cmdOk env)).take 1).map loadNullSinkCmd
  ∧ ∀ c ∈ (create_link_outputs (some ()) env).2, ∃ n, c = loadNullSinkCmd n := by
  have h := create_link_outputs_go_spec env output_names
  refine ⟨create_link_outputs_result env, h.2, ?_⟩
  intro c hc
  unfold create_link_outputs at hc
  rw [h.2] at hc
  simp only [List.mem_map] at hc
  obtain ⟨n, _, hn⟩ := hc
  exact ⟨n, hn.symm⟩

/-- C5: with an initialized context, `create_virtual_output name` spawns
    exactly the load-module command for `name` and returns true if and
    only if that command exits with status zero. -/
theorem claim_C5 (env : Env) (name : Str) :
    ((create_virtual_output (some ()) env name).1 = true ↔
      ∃ st, env (loadNullSinkCmd name) = CmdResult.output true st)
  ∧ (create_virtual_output (some ()) env name).2 = [loadNullSinkCmd name] := by
  constructor
  · cases h : env (loadNullSinkCmd name) with
    | spawnErr => simp [create_virtual_output, cmdSuccess, h]
    | output success st =>
      cases success <;> simp [create_virtual_output, cmdSuccess, h]
  · rfl

/-- C6: a line with fewer than two tab-separated fields parses to no
    record, and `get_audio_devices` returns exactly the records of the
    well-formed lines of both listings — malformed lines are excluded
    while the remaining lines are still returned. -/
theorem claim_C6 (env : Env) (bs bt : Bool) (s t : Str)
    (hs : env (listShortCmd ("sinks".data)) = CmdResult.output bs (Utf8Result.valid s))
    (ht : env (listShortCmd ("sources".data)) = CmdResult.output bt (Utf8Result.valid t)) :
    (∀ (line : Str) (b : Bool), ¬ wellFormedLine line → parseDeviceLine b line = none)
  ∧ get_audio_devices env =
      ((rustLines s).filter wellFormedLine).filterMap (parseDeviceLine true)
        ++ ((rustLines t).filter wellFormedLine).filterMap (parseDeviceLine false) := by
  constructor
  · intro line b h
    have hlt : ¬ 2 ≤ (splitOnChar '\t' line).length := by
      simpa [wellFormedLine] using h
    simp [parseDeviceLine, hlt]
  · simp only [get_audio_devices, hs, ht, devicesFromOutput, parseListing]
    rw [filterMap_parseDeviceLine_filter true (rustLines s),
        filterMap_parseDeviceLine_filter false (rustLines t)]

/-- Witness for C6 on a fixture whose sinks listing contains a malformed
    single-field line. -/
theorem claim_C6_witness :
    fixtureEnv sinksFixture sourcesFixture modulesFixture (listShortCmd ("sinks".data))
      = CmdResult.output true (Utf8Result.valid sinksFixture)
  ∧ get_audio_devices (fixtureEnv sinksFixture sourcesFixture modulesFixture) =
      ((rustLines sinksFixture).filter wellFormedLine).filterMap (parseDeviceLine true)
        ++ ((rustLines sourcesFixture).filter wellFormedLine).filterMap (parseDeviceLine false) :=
  ⟨by decide,
   (claim_C6 (fixtureEnv sinksFixture sourcesFixture modulesFixture) true true
      sinksFixture sourcesFixture (by decide) (by decide)).2⟩

/-- C7: for a name with no special characters (alphanumeric or
    underscore), `create_virtual_output` spawns exactly one command whose
    argument list contains the exact string `sink_name=` followed by the
    name. -/
theorem claim_C7 (env : Env) (name : Str) (h : noSpecialChars name = true) :
    (create_virtual_output (some ()) env name).2 = [loadNullSinkCmd name]
  ∧ ("sink_name=".data ++ name) ∈ loadNullSinkCmd name := by
  refine ⟨rfl, ?_⟩
  simp [loadNullSinkCmd]

/-- Witness for C7 at the name `Test_1`. -/
theorem claim_C7_witness :
    noSpecialChars ("Test_1".data) = true
  ∧ ("sink_name=".data ++ "Test_1".data) ∈ loadNullSinkCmd ("Test_1".data) :=
  ⟨by decide,
   (claim_C7 (fun _ => CmdResult.spawnErr) ("Test_1".data) (by decide)).2⟩

/-- C8: the substring match of the cleanup loop is case-sensitive — a
    line containing `BEACN_Link_` (the casing used by
    `create_link_outputs`) but not the lowercase `beacn_link_` produces
    no unload command. -/
theorem claim_C8 (line : Str)
    (h1 : containsSub line ("BEACN_Link_".data) = true)
    (h2 : containsSub line ("beacn_link_".data) = false) :
    cleanupLineUnload line = none := by
  simp [cleanupLineUnload, h2]

/-- Witness for C8 on a module-listing line for a sink created by
    `create_link_outputs`. -/
theorem claim_C8_witness :
    containsSub ("5\tmodule-null-sink\tsink_name=BEACN_Link_Out".data)
        ("BEACN_Link_".data) = true
  ∧ containsSub ("5\tmodule-null-sink\tsink_name=BEACN_Link_Out".data)
        ("beacn_link_".data) = false
  ∧ cleanupLineUnload ("5\tmodule-null-sink\tsink_name=BEACN_Link_Out".data) = none :=
  ⟨by decide, by decide,
   claim_C8 ("5\tmodule-null-sink\tsink_name=BEACN_Link_Out".data)
     (by decide) (by decide)⟩

/-- C9: with an empty context slot (as left by `BeacnLink::new` before a
    successful `initialize`), `create_virtual_output`, `route_audio` and
    `create_link_outputs` all return false and spawn no command. -/
theorem claim_C9 (env : Env) (name source destination : Str) :
    create_virtual_output none env name = (false, [])
  ∧ route_audio none env source destination = (false, [])
  ∧ create_link_outputs none env = (false, []) :=
  ⟨rfl, rfl, rfl⟩

/-- C10: a listing line with exactly two tab-separated fields yields a
    record whose id is the first field, whose name is the second and
    whose description is empty; any listing containing such a line
    includes that record. -/
theorem claim_C10 (b : Bool) (line f0 f1 : Str)
    (h : splitOnChar '\t' line = [f0, f1]) :
    parseDeviceLine b line = some ⟨f1, f0, [], b⟩
  ∧ ∀ u : Str, line ∈ rustLines u →
      (⟨f1, f0, [], b⟩ : AudioDevice) ∈ parseListing b u := by
  have h1 : parseDeviceLine b line = some ⟨f1, f0, [], b⟩ := by
    simp [parseDeviceLine, h]
  refine ⟨h1, ?_⟩
  intro u hu
  simp only [parseListing, List.mem_filterMap]
  exact ⟨line, hu, h1⟩

/-- Witness for C10 at the two-field line `3<tab>dev`. -/
theorem claim_C10_witness :
    splitOnChar '\t' ("3\tdev".data) = ["3".data, "dev".data]
  ∧ parseDeviceLine true ("3\tdev".data) =
      some ⟨"dev".data, "3".data, [], true⟩ :=
  ⟨by decide,
   (claim_C10 true ("3\tdev".data) ("3".data) ("dev".data) (by decide)).1⟩

end BeacnLink
